import Mathlib

/-!
Verification of the chat session / execution-plan state synchronization logic of
the controlVector frontend (`src/pages/ChatPage.tsx`), shallowly embedded in Lean.

The chat page is a React function component.  Its inbound WebSocket dispatcher
(`ws.onmessage`) is installed exactly once, by the mount-only effect, so every
render constant the handler closes over (`messages`, `currentIntent`) keeps the
value it had at mount time for the whole life of the socket, while the
`setXxx(prev => ...)` functional updates act on the current state.  The embedding
makes this explicit: `handleMessage` receives the captured render constants as
parameters, separate from the current state it transforms.
-/

namespace CV

/-- Character-list analogue of "the second list starts with the first". -/
def headMatches : List Char → List Char → Bool
  | [], _ => true
  | _ :: _, [] => false
  | a :: as, b :: bs => a == b && headMatches as bs

/-- Does `pat` occur at some position of the list? -/
def subAt (pat : List Char) : List Char → Bool
  | [] => pat.isEmpty
  | c :: cs => headMatches pat (c :: cs) || subAt pat cs

/-- JavaScript `s.includes(pat)`: substring containment. -/
def jsIncludes (s : String) (pat : String) : Bool := subAt pat.data s.data

/-- JavaScript `a || b` on optional strings.  (JS also treats the empty string
as falsy; no marker or identifier compared here is ever empty.) -/
def jsOr (a : Option String) (b : Option String) : Option String :=
  match a with
  | some s => some s
  | none => b

/-- `Message.type` in `ChatPage.tsx`. -/
inductive MsgType
  | user
  | ai
  | system
  | execution_plan
deriving DecidableEq

/-- `ExecutionStep.status` in `ChatPage.tsx`. -/
inductive StepStatus
  | pending
  | approved
  | executing
  | completed
  | failed
  | skipped
deriving DecidableEq

/-- `ExecutionPlan.status` in `ChatPage.tsx`. -/
inductive PlanStatus
  | awaiting_approval
  | approved
  | executing
  | completed
  | cancelled
deriving DecidableEq

/-- `ExecutionStep` interface.  `parameters` is an opaque map (always `{}` in the
synthesized template). -/
structure ExecutionStep where
  id : String
  service : String
  action : String
  description : String
  parameters : List (String × String)
  status : StepStatus
  estimatedTime : Option String := none
deriving DecidableEq

/-- `ExecutionPlan` interface. -/
structure ExecutionPlan where
  id : String
  objective : String
  steps : List ExecutionStep
  status : PlanStatus
  totalEstimatedTime : Option String := none
deriving DecidableEq

/-- `Message` interface, together with the extra `recovery*` properties the
`recovery_*` handlers attach.  `timestamp` is the wire timestamp string the
`Date` was built from (`none` for locally created messages); `confidence` is the
wire number, carried verbatim and never computed on, kept as its wire text. -/
structure Message where
  id : String
  type : MsgType
  content : String
  timestamp : Option String := none
  intent : Option String := none
  confidence : Option String := none
  agent : Option String := none
  executionPlan : Option ExecutionPlan := none
  recoveryId : Option String := none
  recoveryStatus : Option String := none
  recoveryStep : Option Nat := none
  recoveryTotalSteps : Option Nat := none
  recoveryAttempt : Option Nat := none
  recoveryAttempts : Option Nat := none
  recoverySuggestions : Option (List String) := none
deriving DecidableEq

/-- `TypingIndicator` interface. -/
structure TypingIndicator where
  is_typing : Bool
  agent : Option String := none
  operation : Option String := none
deriving DecidableEq

/-- The mutable state of one mounted chat session: the `useState` cells of
`ChatPage` that the dispatcher and the timer callbacks touch.  `toasts` records
the texts of the `toast.error` / `toast.success` notifications raised, in
order. -/
structure ChatState where
  messages : List Message
  isTyping : TypingIndicator
  currentIntent : Option String
  thinkingMessages : List String
  currentThinkingMessage : Nat
  conversationId : Option String
  toasts : List String
deriving DecidableEq

/-- The welcome message the `messages` state is initialized with. -/
def welcomeMessage : Message :=
  { id := "1"
    type := .system
    content := "Welcome to ControlVector! I\x27m Victor, your AI infrastructure assistant. I can help you deploy applications, manage cloud resources, monitor systems, and much more. What would you like to do today?" }

/-- Initial value of the `messages` state cell. -/
def initialMessages : List Message := [welcomeMessage]

/-- State of a freshly mounted chat session (no persisted conversation id). -/
def initialChatState : ChatState :=
  { messages := initialMessages
    isTyping := { is_typing := false }
    currentIntent := none
    thinkingMessages := ["Processing your request..."]
    currentThinkingMessage := 0
    conversationId := none
    toasts := [] }

/-- Inbound WebSocket frames, discriminated by `data.type`, with the fields each
handler of `ws.onmessage` reads. -/
inductive InboundFrame
  | ai_response (content : String) (timestamp : Option String)
      (intent : Option String) (confidence : Option String) (agent : Option String)
  | typing_indicator (is_typing : Bool) (agent : Option String)
      (operation : Option String) (intent : Option String)
  | step_completed (step_id : String) (step_name : Option String)
  | step_failed (step_id : String) (step_name : Option String)
  | error (message : Option String)
  | recovery_started (message : Option String) (timestamp : Option String)
      (provider : String) (operation : String) (recovery_id : String)
  | recovery_progress (message : String) (timestamp : Option String)
      (recovery_id : String) (step : Nat) (total_steps : Nat) (attempt : Nat)
  | recovery_success (message : String) (timestamp : Option String)
      (recovery_id : String) (attempts : Nat)
  | recovery_escalated (message : String) (timestamp : Option String)
      (recovery_id : String) (attempts : Nat) (suggestions : List String)
  | conversation_created (conversation_id : String)
  | pong
  | unknown (tag : String)
deriving DecidableEq

/-- The `isStepResult` content sniff at the top of the `ai_response` handler. -/
def isStepResult (content : String) : Bool :=
  jsIncludes content "✅ Step completed:" ||
  jsIncludes content "❌ Step failed:" ||
  jsIncludes content "Execute step:"

/-- The `isExecutionPlan` content sniff of the `ai_response` handler. -/
def isExecutionPlan (content : String) : Bool :=
  jsIncludes content "📋 Execution Plan:" ||
  jsIncludes content "🤖 **Deployment Request Analyzed**" ||
  jsIncludes content "deploy" ||
  jsIncludes content "Deployment"

/-- Status the step-result path assigns to a step that was `executing`:
`failed` when the content carries a failure marker, else `completed`. -/
def stepResultStatus (content : String) : StepStatus :=
  if jsIncludes content "❌" || jsIncludes content "failed" then .failed else .completed

/-- The per-step lambda of the step-result update: a step currently `executing`
is marked per `stepResultStatus`, others are returned unchanged. -/
def stepResultFn (content : String) (step : ExecutionStep) : ExecutionStep :=
  if step.status = .executing then { step with status := stepResultStatus content } else step

/-- The per-message lambda of the step-result update: guarded by
`message.type === 'execution_plan' && message.executionPlan`. -/
def stepResultMessage (content : String) (message : Message) : Message :=
  match message.type, message.executionPlan with
  | .execution_plan, some plan =>
      { message with
        executionPlan := some { plan with steps := plan.steps.map (stepResultFn content) } }
  | _, _ => message

/-- The step-result `setMessages` update: in every `execution_plan` message with
a plan attached, every step currently `executing` is marked per
`stepResultStatus`. -/
def applyStepResult (content : String) (msgs : List Message) : List Message :=
  msgs.map (stepResultMessage content)

/-- The per-step lambda shared by the four step-status updates:
`step.id === stepId ? { ...step, status } : step`. -/
def setStepFn (stepId : String) (newStatus : StepStatus) (step : ExecutionStep) :
    ExecutionStep :=
  if step.id = stepId then { step with status := newStatus } else step

/-- The per-message lambda of the step-status updates, guarded by
`message.type === 'execution_plan' && message.executionPlan`. -/
def setStepMessage (stepId : String) (newStatus : StepStatus) (message : Message) : Message :=
  match message.type, message.executionPlan with
  | .execution_plan, some plan =>
      { message with
        executionPlan := some { plan with steps := plan.steps.map (setStepFn stepId newStatus) } }
  | _, _ => message

/-- Shared shape of the four `setMessages(prev => prev.map(...))` updates that
set the status of the step with the given id inside every `execution_plan`
message: the `step_completed` handler (`completed`), the `step_failed` handler
(`failed`), the optimistic update in `executeStep` (`executing`), and the
fallback timer in `executeStep` (`completed`). -/
def setStepStatus (stepId : String) (newStatus : StepStatus) (msgs : List Message) :
    List Message :=
  msgs.map (setStepMessage stepId newStatus)

/-- The fixed five-step deployment pipeline template (`deploymentSteps` array
literal in the `ai_response` handler). -/
def deploymentStepsTemplate : List ExecutionStep :=
  [ { id := "step-1", service := "mercury", action := "analyze_repository"
      description := "Analyze repository structure and requirements"
      parameters := [], status := .pending, estimatedTime := some "30s" }
  , { id := "step-2", service := "atlas", action := "provision_infrastructure"
      description := "Provision cloud infrastructure"
      parameters := [], status := .pending, estimatedTime := some "2-3m" }
  , { id := "step-3", service := "neptune", action := "create_dns_record"
      description := "Configure DNS records"
      parameters := [], status := .pending, estimatedTime := some "1m" }
  , { id := "step-4", service := "hermes", action := "generate_ssh_key"
      description := "Generate SSH keys for deployment"
      parameters := [], status := .pending, estimatedTime := some "30s" }
  , { id := "step-5", service := "phoenix", action := "deploy_application"
      description := "Deploy application to infrastructure"
      parameters := [], status := .pending, estimatedTime := some "3-5m" } ]

/-- The thinking-message tables of `getContextAwareThinkingMessages`: the base
messages always present. -/
def baseMessages : List String :=
  [ "Processing your request..."
  , "Analyzing your requirements..."
  , "Coordinating with microservices..." ]

/-- Intent-specific thinking messages (`intentMessages` record). -/
def intentMessages : List (String × List String) :=
  [ ("deploy_application",
      [ "Analyzing your application requirements..."
      , "Consulting with Atlas for optimal server specs..."
      , "Reviewing deployment patterns..."
      , "Calculating infrastructure costs..."
      , "Preparing deployment strategy..."
      , "Configuring SSH keys for secure access..."
      , "Setting up automated deployment pipeline..."
      , "Optimizing for performance and cost..." ])
  , ("create_infrastructure",
      [ "Evaluating cloud provider options..."
      , "Calculating resource requirements..."
      , "Comparing regional pricing..."
      , "Consulting Atlas for infrastructure planning..."
      , "Reviewing security configurations..."
      , "Preparing infrastructure blueprint..."
      , "Estimating monthly costs..."
      , "Validating network configurations..." ])
  , ("estimate_costs",
      [ "Accessing real-time pricing data..."
      , "Analyzing current infrastructure spend..."
      , "Calculating projected monthly costs..."
      , "Comparing provider pricing..."
      , "Running cost optimization algorithms..."
      , "Identifying potential savings..."
      , "Preparing detailed cost breakdown..." ])
  , ("check_status",
      [ "Querying infrastructure health status..."
      , "Checking service uptime metrics..."
      , "Analyzing performance data..."
      , "Reviewing recent deployments..."
      , "Gathering system diagnostics..."
      , "Compiling status report..." ])
  , ("scale_infrastructure",
      [ "Analyzing current resource utilization..."
      , "Calculating scaling requirements..."
      , "Evaluating auto-scaling policies..."
      , "Consulting Atlas for scaling strategy..."
      , "Estimating scaling costs..."
      , "Preparing resource adjustment plan..." ])
  , ("manage_costs",
      [ "Analyzing current spending patterns..."
      , "Identifying cost optimization opportunities..."
      , "Reviewing resource utilization..."
      , "Calculating potential savings..."
      , "Preparing cost reduction recommendations..."
      , "Evaluating right-sizing options..." ])
  , ("security_review",
      [ "Scanning infrastructure security posture..."
      , "Reviewing access controls..."
      , "Checking compliance requirements..."
      , "Analyzing vulnerability reports..."
      , "Consulting Sherlock for security insights..."
      , "Preparing security recommendations..." ])
  , ("general_question",
      [ "Processing your question..."
      , "Accessing knowledge base..."
      , "Consulting relevant documentation..."
      , "Preparing comprehensive response..." ]) ]

/-- Operation-specific thinking messages (`operationMessages` record, highest
priority). -/
def operationMessages : List (String × List String) :=
  [ ("analyzing_infrastructure",
      [ "Scanning your current infrastructure..."
      , "Analyzing resource utilization patterns..."
      , "Reviewing cost optimization opportunities..."
      , "Checking system health metrics..." ])
  , ("consulting_atlas",
      [ "Consulting with Atlas infrastructure service..."
      , "Calculating optimal resource configurations..."
      , "Comparing cloud provider options..."
      , "Preparing infrastructure recommendations..." ])
  , ("retrieving_credentials",
      [ "Securely retrieving API credentials..."
      , "Accessing encrypted credential store..."
      , "Validating authentication tokens..."
      , "Establishing secure connections..." ])
  , ("calling_digitalocean_api",
      [ "Connecting to DigitalOcean API..."
      , "Fetching real-time infrastructure data..."
      , "Retrieving droplet configurations..."
      , "Calculating actual monthly costs..." ])
  , ("generating_ssh_keys",
      [ "Generating secure SSH key pairs..."
      , "Configuring deployment access..."
      , "Setting up automated authentication..."
      , "Preparing secure server connections..." ])
  , ("executing_plan",
      [ "Executing approved infrastructure plan..."
      , "Coordinating multi-step deployment..."
      , "Monitoring execution progress..."
      , "Ensuring deployment success..." ]) ]

/-- Agent-specific thinking messages (`agentMessages` record). -/
def agentMessages : List (String × List String) :=
  [ ("Atlas",
      [ "Atlas is provisioning cloud resources..."
      , "Consulting with DigitalOcean API..."
      , "Calculating infrastructure costs..."
      , "Configuring network topology..."
      , "Setting up load balancers..."
      , "Initializing database clusters..." ])
  , ("Phoenix",
      [ "Phoenix is analyzing deployment pipeline..."
      , "Configuring CI/CD workflows..."
      , "Setting up monitoring dashboards..."
      , "Preparing rollback strategies..."
      , "Optimizing deployment performance..." ])
  , ("Sherlock",
      [ "Sherlock is scanning security configurations..."
      , "Analyzing access patterns..."
      , "Checking compliance requirements..."
      , "Reviewing audit logs..."
      , "Identifying security vulnerabilities..." ])
  , ("Victor",
      [ "Victor is orchestrating the request..."
      , "Coordinating between specialized agents..."
      , "Analyzing intent and requirements..."
      , "Preparing execution plan..."
      , "Synchronizing with Context Manager..." ]) ]

/-- The general infrastructure filler appended when context is limited. -/
def genericFillerMessages : List String :=
  [ "Accessing real-time infrastructure data..."
  , "Synchronizing with cloud providers..."
  , "Optimizing resource allocation..."
  , "Preparing detailed analysis..." ]

/-- `getContextAwareThinkingMessages(intent?, agent?)`: the single parameter
named `intent` doubles as the operation key (the caller passes
`data.operation || currentIntent || data.intent`).  The JS truthiness tests
`intent && table[intent]` are modelled by the option match plus table lookup
(an empty-string key, falsy in JS, misses every table, so the value agrees). -/
def getContextAwareThinkingMessages (intent : Option String) (agent : Option String) :
    List String :=
  let contextMessages₁ :=
    match intent with
    | none => baseMessages
    | some i =>
      match operationMessages.lookup i with
      | some ops => baseMessages ++ ops
      | none =>
        match intentMessages.lookup i with
        | some ints => baseMessages ++ ints
        | none => baseMessages
  let contextMessages₂ :=
    match agent with
    | none => contextMessages₁
    | some a =>
      match agentMessages.lookup a with
      | some ags => contextMessages₁ ++ ags
      | none => contextMessages₁
  if contextMessages₂.length ≤ 3 then contextMessages₂ ++ genericFillerMessages
  else contextMessages₂

/-- One step of the `ws.onmessage` dispatcher.

`captured` and `capturedIntent` are the render constants `messages` and
`currentIntent` that the handler closure captured when it was installed.  The
handler is installed once, by the mount-only effect, so at run time
`captured = initialMessages` and `capturedIntent = none` for the whole life of
the socket; only the `setXxx` functional updates see the current state `s`.
`now` stands for `Date.now().toString()` at dispatch time.  `console.log` calls
and `sessionStorage` writes are not modelled. -/
def handleMessage (captured : List Message) (capturedIntent : Option String)
    (now : String) (frame : InboundFrame) (s : ChatState) : ChatState :=
  match frame with
  | .ai_response content timestamp intent confidence agent =>
    if isStepResult content then
      { s with
        messages :=
          applyStepResult content s.messages ++
            [ { id := timestamp.getD now, type := .ai, content, timestamp
                intent, confidence, agent } ]
        isTyping := { is_typing := false }
        currentIntent := none }
    else
      let existingExecutionPlan := captured.find? fun msg => msg.type = .execution_plan
      let shouldCreateExecutionPlan := isExecutionPlan content && existingExecutionPlan.isNone
      let deploymentSteps := if shouldCreateExecutionPlan then deploymentStepsTemplate else []
      { s with
        messages :=
          s.messages ++
            [ { id := timestamp.getD now
                type := if shouldCreateExecutionPlan then .execution_plan else .ai
                content, timestamp, intent, confidence, agent
                executionPlan :=
                  if shouldCreateExecutionPlan then
                    some { id := "deployment-plan-" ++ now
                           objective := "Deploy application with full infrastructure setup"
                           steps := deploymentSteps
                           status := .awaiting_approval
                           totalEstimatedTime := some "7-10 minutes" }
                  else none } ]
        isTyping := { is_typing := false }
        currentIntent := none }
  | .typing_indicator typing agent operation intent =>
    let s₁ := { s with isTyping := { is_typing := typing, agent, operation } }
    if typing then
      { s₁ with
        thinkingMessages :=
          getContextAwareThinkingMessages (jsOr operation (jsOr capturedIntent intent)) agent
        currentThinkingMessage := 0 }
    else s₁
  | .step_completed step_id _ =>
    { s with messages := setStepStatus step_id .completed s.messages }
  | .step_failed step_id step_name =>
    { s with
      messages := setStepStatus step_id .failed s.messages
      toasts := s.toasts ++ ["Step failed: " ++ step_name.getD "undefined"] }
  | .error message =>
    { s with
      toasts := s.toasts ++ [message.getD "An error occurred"]
      isTyping := { is_typing := false } }
  | .recovery_started message timestamp provider operation recovery_id =>
    { s with
      messages :=
        s.messages ++
          [ { id := timestamp.getD now, type := .system
              content :=
                message.getD
                  ("🔧 Starting intelligent error recovery for " ++ provider ++ " " ++
                    operation ++ "...")
              timestamp
              recoveryId := some recovery_id
              recoveryStatus := some "started" } ] }
  | .recovery_progress message timestamp recovery_id step total_steps attempt =>
    { s with
      messages :=
        s.messages ++
          [ { id := timestamp.getD now, type := .system, content := message, timestamp
              recoveryId := some recovery_id
              recoveryStatus := some "progress"
              recoveryStep := some step
              recoveryTotalSteps := some total_steps
              recoveryAttempt := some attempt } ] }
  | .recovery_success message timestamp recovery_id attempts =>
    { s with
      messages :=
        s.messages ++
          [ { id := timestamp.getD now, type := .system, content := message, timestamp
              recoveryId := some recovery_id
              recoveryStatus := some "success"
              recoveryAttempts := some attempts } ] }
  | .recovery_escalated message timestamp recovery_id attempts suggestions =>
    { s with
      messages :=
        s.messages ++
          [ { id := timestamp.getD now, type := .system, content := message, timestamp
              recoveryId := some recovery_id
              recoveryStatus := some "escalated"
              recoveryAttempts := some attempts
              recoverySuggestions := some suggestions } ] }
  | .conversation_created conversation_id =>
    { s with
      conversationId := some conversation_id
      toasts := s.toasts ++ ["New conversation started"] }
  | .pong => s
  | .unknown _ => s

/-- The synchronous part of `executeStep(stepId, stepName)` (connection guard
assumed passed): optimistic `executing` status, a user message
`Execute step: <name>`, the outbound frame (not modelled), and the typing
indicator. -/
def executeStep (stepId : String) (stepName : String) (now : String) (s : ChatState) :
    ChatState :=
  let s₁ := { s with messages := setStepStatus stepId .executing s.messages }
  let s₂ :=
    { s₁ with
      messages :=
        s₁.messages ++
          [ ({ id := now, type := .user, content := "Execute step: " ++ stepName } : Message) ] }
  { s₂ with
    isTyping :=
      { is_typing := true, agent := some "Victor"
        operation := some ("Executing " ++ stepName ++ "...") } }

/-- Body of the `setTimeout(..., 3000)` fallback in `executeStep` ("Simulate
step completion"): when the timer fires it sets the step with the given id to
`completed` in every plan message. -/
def stepFallbackFire (stepId : String) (s : ChatState) : ChatState :=
  { s with messages := setStepStatus stepId .completed s.messages }

/-- `WebSocket.readyState` values. -/
inductive WSReadyState
  | CONNECTING
  | OPEN
  | CLOSING
  | CLOSED
deriving DecidableEq

/-- Observable effect of the `ws.onclose` handler: `setIsConnected(false)`,
clearing the heartbeat interval when one was attached, and at most one
scheduled reconnect timer, recorded with its delay in milliseconds. -/
structure CloseEffect where
  connectedAfter : Bool
  heartbeatCleared : Bool
  reconnectDelayMs : Option Nat
deriving DecidableEq

/-- The `ws.onclose` handler as a function of the close code: a reconnect timer
is scheduled (delay 3000 ms) exactly when the code is neither 1000 (normal
closure) nor 1008 (policy violation / auth failure). -/
def onCloseEffect (hasHeartbeatTimer : Bool) (code : Nat) : CloseEffect :=
  { connectedAfter := false
    heartbeatCleared := hasHeartbeatTimer
    reconnectDelayMs := if code ≠ 1000 ∧ code ≠ 1008 then some 3000 else none }

/-- The guard the scheduled reconnect callback evaluates when it fires:
`!wsRef.current || wsRef.current.readyState === WebSocket.CLOSED`.  The
argument is the ready state of the handle held in `wsRef` at fire time
(`none` when the ref is null). -/
def reconnectGuard (current : Option WSReadyState) : Bool :=
  match current with
  | none => true
  | some st => st = .CLOSED

/-- Modelled from the spec: a connection is "currently live" when a handle
exists and is not fully closed (spec 4.2, "only if no other connection attempt
is currently live (checked via the handle's current state at the time the
delayed attempt fires)"). -/
def isLive (current : Option WSReadyState) : Bool :=
  match current with
  | none => false
  | some st => st ≠ .CLOSED

/-- The thinking-message rotation tick of the interval effect:
`setCurrentThinkingMessage(prev => (prev + 1) % thinkingMessages.length)`. -/
def rotateThinkingMessage (s : ChatState) : ChatState :=
  { s with currentThinkingMessage := (s.currentThinkingMessage + 1) % s.thinkingMessages.length }

/-- Modelled from the spec (8, frame-effect table): how many messages each
inbound frame appends — one for `ai_response` and each `recovery_*` frame,
none for the rest. -/
def specAppendCount : InboundFrame → Nat
  | .ai_response .. => 1
  | .recovery_started .. => 1
  | .recovery_progress .. => 1
  | .recovery_success .. => 1
  | .recovery_escalated .. => 1
  | _ => 0

/-- Modelled from the spec (4.5): the thinking-message selector consults the
operation table first, else the intent table, appends the agent table when the
agent matches, and appends the generic filler exactly when the combined list
has at most 3 entries. -/
def specThinkingMessages (key : Option String) (agent : Option String) : List String :=
  let specific :=
    match key.bind (operationMessages.lookup ·) with
    | some ops => ops
    | none =>
      match key.bind (intentMessages.lookup ·) with
      | some ints => ints
      | none => []
  let agentPart :=
    match agent.bind (agentMessages.lookup ·) with
    | some ags => ags
    | none => []
  let combined := baseMessages ++ specific ++ agentPart
  if combined.length ≤ 3 then combined ++ genericFillerMessages else combined

/-- Number of `execution_plan`-typed messages in a list. -/
def countPlanMessages (msgs : List Message) : Nat :=
  (msgs.filter fun m => m.type = .execution_plan).length

/-- Status of the first step with the given id found in any attached plan. -/
def stepStatusById (stepId : String) (msgs : List Message) : Option StepStatus :=
  msgs.findSome? fun m =>
    match m.executionPlan with
    | some plan => (plan.steps.find? fun st => st.id = stepId).map (·.status)
    | none => none

/-- Status of the plan attached to the first message carrying one. -/
def firstPlanStatus (msgs : List Message) : Option PlanStatus :=
  msgs.findSome? fun m => m.executionPlan.map (·.status)

/-- An inbound deployment-analysis response (matches the execution-plan
sniff, not the step-result sniff). -/
def planRequestFrame : InboundFrame :=
  .ai_response "🤖 **Deployment Request Analyzed** Ready to deploy your app" (some "t1")
    none none none

/-- A later plain response that happens to contain the word `deploy`. -/
def secondDeployFrame : InboundFrame :=
  .ai_response "I will deploy it now" (some "t2") none none none

/-- Session state after the first deployment-analysis response: one
`execution_plan` message, `awaiting_approval`.  The handler closure still
captures the mount-time values (`initialMessages`, no intent). -/
def afterFirstPlan : ChatState :=
  handleMessage initialMessages none "1001" planRequestFrame initialChatState

/-- Session state after a second plan-matching response arrives while the
first plan is outstanding. -/
def afterSecondDeploy : ChatState :=
  handleMessage initialMessages none "1002" secondDeployFrame afterFirstPlan

/-- A single step `step-1` in the given status, for concrete scenarios. -/
def stepObjWith (stStatus : StepStatus) : ExecutionStep :=
  { id := "step-1", service := "mercury", action := "analyze_repository"
    description := "Analyze repository structure and requirements"
    parameters := [], status := stStatus }

/-- A plan holding only `step-1` in the given status. -/
def planObjWith (stStatus : StepStatus) : ExecutionPlan :=
  { id := "plan-1"
    objective := "Deploy application"
    steps := [stepObjWith stStatus]
    status := .executing }

/-- An `execution_plan` message holding one step (`step-1`) in the given
status, for concrete scenarios. -/
def planMessageWith (stStatus : StepStatus) : Message :=
  { id := "plan-msg"
    type := .execution_plan
    content := "📋 Execution Plan:"
    executionPlan := some (planObjWith stStatus) }

/-- A session whose plan has its single step `step-1` in the given status. -/
def stateWithStep (stStatus : StepStatus) : ChatState :=
  { initialChatState with messages := initialMessages ++ [planMessageWith stStatus] }

/-- A session whose thinking messages were produced by the selector. -/
def rotationWitnessState : ChatState :=
  { initialChatState with
    thinkingMessages := getContextAwareThinkingMessages none none }

/-- Does any step inside any `execution_plan` message carry the given id?  The
Boolean form of the resolution check of the step-lifecycle handlers. -/
def stepIdExists (stepId : String) (msgs : List Message) : Bool :=
  msgs.any fun m =>
    match m.type, m.executionPlan with
    | .execution_plan, some plan => plan.steps.any fun stp => stp.id = stepId
    | _, _ => false

lemma map_self_idem {α : Type} (f : α → α) (hf : ∀ a, f (f a) = f a) (l : List α) :
    (l.map f).map f = l.map f := by
  rw [List.map_map]
  exact List.map_congr_left fun a _ => hf a

lemma setStepFn_idem (stepId : String) (st : StepStatus) (step : ExecutionStep) :
    setStepFn stepId st (setStepFn stepId st step) = setStepFn stepId st step := by
  rcases step with ⟨sid, sv, ac, de, pa, stat, et⟩
  by_cases h : sid = stepId <;> simp [setStepFn, h]

lemma setStepMessage_idem (stepId : String) (st : StepStatus) (m : Message) :
    setStepMessage stepId st (setStepMessage stepId st m) = setStepMessage stepId st m := by
  rcases m with ⟨i, ty, co, ts, it, cf, ag, ep, r1, r2, r3, r4, r5, r6, r7⟩
  cases ty <;> cases ep <;> simp [setStepMessage]
  exact fun a _ => setStepFn_idem stepId st a

lemma setStepStatus_idem (stepId : String) (st : StepStatus) (msgs : List Message) :
    setStepStatus stepId st (setStepStatus stepId st msgs) = setStepStatus stepId st msgs := by
  unfold setStepStatus
  exact map_self_idem _ (setStepMessage_idem stepId st) msgs

lemma setStepMessage_no_match (stepId : String) (st : StepStatus) (m : Message)
    (h : (match m.type, m.executionPlan with
          | .execution_plan, some plan => plan.steps.any fun stp => stp.id = stepId
          | _, _ => false) = false) :
    setStepMessage stepId st m = m := by
  rcases m with ⟨i, ty, co, ts, it, cf, ag, ep, r1, r2, r3, r4, r5, r6, r7⟩
  cases ty <;> cases ep <;> simp_all [setStepMessage]
  rename_i plan
  rcases plan with ⟨pi, po, steps, ps, pt⟩
  simp only [List.any_eq_false] at h
  have hsteps : steps.map (setStepFn stepId st) = steps := by
    calc steps.map (setStepFn stepId st) = steps.map id :=
          List.map_congr_left fun a ha => by
            have := h a ha
            simp only [decide_eq_true_eq] at this
            simp [setStepFn, this]
      _ = steps := List.map_id steps
  simp [hsteps]

lemma setStepStatus_no_match (stepId : String) (st : StepStatus) (msgs : List Message)
    (H : stepIdExists stepId msgs = false) :
    setStepStatus stepId st msgs = msgs := by
  unfold stepIdExists at H
  simp only [List.any_eq_false] at H
  unfold setStepStatus
  calc msgs.map (setStepMessage stepId st) = msgs.map id :=
        List.map_congr_left fun m hm => by
          have := H m hm
          simp only [Bool.not_eq_true] at this
          exact setStepMessage_no_match stepId st m this
    _ = msgs := List.map_id msgs

/-- C4: dispatching `step_completed` twice for the same step id leaves the
whole session state exactly as after one dispatch — the step stays `completed`,
nothing errors, and the second dispatch has no further effect. -/
theorem step_completed_idempotent (captured : List Message) (ci : Option String)
    (now sid : String) (sname : Option String) (s : ChatState) :
    handleMessage captured ci now (.step_completed sid sname)
        (handleMessage captured ci now (.step_completed sid sname) s) =
      handleMessage captured ci now (.step_completed sid sname) s := by
  simp [handleMessage, setStepStatus_idem]

/-- C6: a `step_completed` or `step_failed` frame whose step id resolves to no
step of any `execution_plan` message leaves the message list (and so every plan
and step) unchanged; the total model never throws. -/
theorem unmatched_step_events_noop (captured : List Message) (ci : Option String)
    (now sid : String) (sname : Option String) (s : ChatState)
    (H : stepIdExists sid s.messages = false) :
    (handleMessage captured ci now (.step_completed sid sname) s).messages = s.messages ∧
    (handleMessage captured ci now (.step_failed sid sname) s).messages = s.messages := by
  constructor <;> simp [handleMessage, setStepStatus_no_match sid _ s.messages H]

theorem unmatched_step_events_noop_witness :
    stepIdExists "no-such-step" (stateWithStep .pending).messages = false ∧
    (handleMessage initialMessages none "0" (.step_completed "no-such-step" none)
        (stateWithStep .pending)).messages = (stateWithStep .pending).messages ∧
    (handleMessage initialMessages none "0" (.step_failed "no-such-step" none)
        (stateWithStep .pending)).messages = (stateWithStep .pending).messages :=
  ⟨by decide,
    (unmatched_step_events_noop initialMessages none "0" "no-such-step" none
      (stateWithStep .pending) (by decide)).1,
    (unmatched_step_events_noop initialMessages none "0" "no-such-step" none
      (stateWithStep .pending) (by decide)).2⟩

lemma setStepMessage_at (stepId : String) (st : StepStatus) (m : Message)
    (p : ExecutionPlan) (hty : m.type = .execution_plan) (hp : m.executionPlan = some p) :
    setStepMessage stepId st m =
      { m with executionPlan := some { p with steps := p.steps.map (setStepFn stepId st) } } := by
  rcases m with ⟨i, ty, co, ts, it, cf, ag, ep, r1, r2, r3, r4, r5, r6, r7⟩
  simp only at hty hp
  subst hty
  subst hp
  simp [setStepMessage]

lemma stepResultMessage_at (content : String) (m : Message)
    (p : ExecutionPlan) (hty : m.type = .execution_plan) (hp : m.executionPlan = some p) :
    stepResultMessage content m =
      { m with executionPlan := some { p with steps := p.steps.map (stepResultFn content) } } := by
  rcases m with ⟨i, ty, co, ts, it, cf, ag, ep, r1, r2, r3, r4, r5, r6, r7⟩
  simp only at hty hp
  subst hty
  subst hp
  simp [stepResultMessage]

/-- C2 counterexample: the optimistic fallback timer of `executeStep` fires on
a step that already reached the terminal status `failed` and overwrites it to
`completed` — it is not the claimed no-op. -/
theorem fallback_overwrites_failed_step :
    stepStatusById "step-1" (stateWithStep .failed).messages = some .failed ∧
    stepStatusById "step-1" (stepFallbackFire "step-1" (stateWithStep .failed)).messages =
      some .completed := by
  exact ⟨rfl, rfl⟩

/-- C2 amended: the fallback timer started by `executeStep` is unguarded — when
it fires it sets every step with its id in every plan message to `completed`
regardless of the status already reached (in particular a terminal `failed` is
overwritten). -/
theorem fallback_timer_unguarded (s : ChatState) (sid : String) (i j : Nat)
    (m : Message) (p : ExecutionPlan) (st : ExecutionStep)
    (hm : s.messages[i]? = some m) (hty : m.type = .execution_plan)
    (hp : m.executionPlan = some p) (hst : p.steps[j]? = some st) (hid : st.id = sid) :
    ∃ m' p' st',
      (stepFallbackFire sid s).messages[i]? = some m' ∧
      m'.executionPlan = some p' ∧ p'.steps[j]? = some st' ∧ st'.status = .completed := by
  refine ⟨setStepMessage sid .completed m,
    { p with steps := p.steps.map (setStepFn sid .completed) },
    setStepFn sid .completed st, ?_, ?_, ?_, ?_⟩
  · simp [stepFallbackFire, setStepStatus, List.getElem?_map, hm]
  · rw [setStepMessage_at sid .completed m p hty hp]
  · simp [List.getElem?_map, hst]
  · simp [setStepFn, hid]

theorem fallback_timer_unguarded_witness :
    ∃ m' p' st',
      (stepFallbackFire "step-1" (stateWithStep .failed)).messages[1]? = some m' ∧
      m'.executionPlan = some p' ∧ p'.steps[0]? = some st' ∧ st'.status = .completed :=
  fallback_timer_unguarded (stateWithStep .failed) "step-1" 1 0
    (planMessageWith .failed) (planObjWith .failed) (stepObjWith .failed)
    (by decide) rfl rfl (by decide) rfl

/-- C3: while some step is `executing` in a plan message, an `ai_response`
whose content passes the step-result sniff and carries a failure marker
transitions that step to `failed`, not `completed`. -/
theorem failure_marker_sets_step_failed (captured : List Message) (ci : Option String)
    (now content : String) (ts intent conf agent : Option String) (s : ChatState)
    (i j : Nat) (m : Message) (p : ExecutionPlan) (st : ExecutionStep)
    (hsr : isStepResult content = true)
    (hfail : (jsIncludes content "❌" || jsIncludes content "failed") = true)
    (hm : s.messages[i]? = some m) (hty : m.type = .execution_plan)
    (hp : m.executionPlan = some p) (hst : p.steps[j]? = some st)
    (hex : st.status = .executing) :
    ∃ m' p' st',
      (handleMessage captured ci now (.ai_response content ts intent conf agent)
          s).messages[i]? = some m' ∧
      m'.executionPlan = some p' ∧ p'.steps[j]? = some st' ∧ st'.status = .failed := by
  obtain ⟨hi, -⟩ := List.getElem?_eq_some.mp hm
  refine ⟨stepResultMessage content m,
    { p with steps := p.steps.map (stepResultFn content) },
    stepResultFn content st, ?_, ?_, ?_, ?_⟩
  · have hlen : i < (List.map (stepResultMessage content) s.messages).length := by
      simpa using hi
    simp only [handleMessage, hsr, if_true, applyStepResult]
    rw [List.getElem?_append_left hlen, List.getElem?_map, hm]
    rfl
  · rw [stepResultMessage_at content m p hty hp]
  · simp [List.getElem?_map, hst]
  · simp [stepResultFn, hex, stepResultStatus, hfail]

theorem failure_marker_sets_step_failed_witness :
    ∃ m' p' st',
      (handleMessage initialMessages none "0"
          (.ai_response "❌ Step failed: Analyze repository structure and requirements"
            (some "t9") none none none)
          (stateWithStep .executing)).messages[1]? = some m' ∧
      m'.executionPlan = some p' ∧ p'.steps[0]? = some st' ∧ st'.status = .failed :=
  failure_marker_sets_step_failed initialMessages none "0"
    "❌ Step failed: Analyze repository structure and requirements"
    (some "t9") none none none (stateWithStep .executing) 1 0
    (planMessageWith .executing) (planObjWith .executing) (stepObjWith .executing)
    (by decide) (by decide) (by decide) rfl rfl (by decide) rfl

/-- C1 evaluated at the failing input: starting from the mount state, a first
plan-matching `ai_response` appends an `execution_plan` message with status
`awaiting_approval`; while it is outstanding, a second `ai_response` matching
the execution-plan sniff appends a second `execution_plan` message rather than
a plain `ai` message, because the outstanding-plan guard reads the `messages`
array the handler closure captured at mount time, which never contains a
plan. -/
theorem second_plan_synthesized_while_outstanding :
    countPlanMessages afterFirstPlan.messages = 1 ∧
    firstPlanStatus afterFirstPlan.messages = some .awaiting_approval ∧
    countPlanMessages afterSecondDeploy.messages = 2 ∧
    (afterSecondDeploy.messages.getLast?.map (·.type)) = some .execution_plan := by
  exact ⟨rfl, rfl, rfl, rfl⟩

/-- C5: the close handler schedules no reconnect for close codes 1000 (normal
closure) and 1008 (auth failure / policy violation); for every other code it
schedules exactly one reconnect timer with the fixed 3000 ms delay, and the
delayed attempt proceeds exactly when no connection handle is live when it
fires. -/
theorem reconnect_policy (hb : Bool) :
    (∀ code : Nat, code = 1000 ∨ code = 1008 →
      (onCloseEffect hb code).reconnectDelayMs = none) ∧
    (∀ code : Nat, code ≠ 1000 → code ≠ 1008 →
      (onCloseEffect hb code).reconnectDelayMs = some 3000) ∧
    (∀ current, reconnectGuard current = true ↔ isLive current = false) := by
  refine ⟨?_, ?_, ?_⟩
  · rintro code (rfl | rfl) <;> simp [onCloseEffect]
  · intro code h1 h2
    simp [onCloseEffect, h1, h2]
  · rintro (_ | st)
    · simp [reconnectGuard, isLive]
    · cases st <;> simp [reconnectGuard, isLive]

theorem reconnect_policy_witness :
    (onCloseEffect true 1000).reconnectDelayMs = none ∧
    (onCloseEffect true 1008).reconnectDelayMs = none ∧
    (onCloseEffect true 1006).reconnectDelayMs = some 3000 ∧
    (reconnectGuard (some .CLOSED) = true ↔ isLive (some .CLOSED) = false) :=
  ⟨(reconnect_policy true).1 1000 (Or.inl rfl),
   (reconnect_policy true).1 1008 (Or.inr rfl),
   (reconnect_policy true).2.1 1006 (by decide) (by decide),
   (reconnect_policy true).2.2 (some .CLOSED)⟩

/-- C7: only `ai_response` and the four `recovery_*` frames append a message
(exactly one each); every other frame leaves the list length unchanged — and an
`error` frame raises a notification with the provided message, clears the
typing indicator, and leaves the message list untouched. -/
theorem frame_append_discipline (captured : List Message) (ci : Option String)
    (now : String) (s : ChatState) :
    (∀ frame, (handleMessage captured ci now frame s).messages.length =
        s.messages.length + specAppendCount frame) ∧
    (∀ msg, (handleMessage captured ci now (.error msg) s).messages = s.messages ∧
        (handleMessage captured ci now (.error msg) s).isTyping = { is_typing := false } ∧
        (handleMessage captured ci now (.error msg) s).toasts =
          s.toasts ++ [msg.getD "An error occurred"]) := by
  constructor
  · intro frame
    cases frame with
    | ai_response content ts it cf ag =>
        rcases h : isStepResult content <;>
          simp [handleMessage, h, specAppendCount, applyStepResult]
    | typing_indicator t ag op it =>
        cases t <;> simp [handleMessage, specAppendCount]
    | step_completed sid sn =>
        simp [handleMessage, specAppendCount, setStepStatus]
    | step_failed sid sn =>
        simp [handleMessage, specAppendCount, setStepStatus]
    | error msg => simp [handleMessage, specAppendCount]
    | recovery_started msg ts pr op rid => simp [handleMessage, specAppendCount]
    | recovery_progress msg ts rid st tot at_ => simp [handleMessage, specAppendCount]
    | recovery_success msg ts rid at_ => simp [handleMessage, specAppendCount]
    | recovery_escalated msg ts rid at_ sug => simp [handleMessage, specAppendCount]
    | conversation_created cid => simp [handleMessage, specAppendCount]
    | pong => simp [handleMessage, specAppendCount]
    | unknown tag => simp [handleMessage, specAppendCount]
  · intro msg
    exact ⟨rfl, rfl, rfl⟩

/-- C8: with no plan message in the list the outstanding-plan guard consults,
an `ai_response` whose content carries the deployment-analyzed marker (and is
not a step result) appends exactly one `execution_plan` message whose plan
awaits approval with the five pipeline steps in order, each `pending`. -/
theorem deployment_analyzed_creates_plan (captured : List Message) (ci : Option String)
    (now content : String) (ts intent conf agent : Option String) (s : ChatState)
    (hcap : ∀ m ∈ captured, m.type ≠ .execution_plan)
    (hmark : jsIncludes content "🤖 **Deployment Request Analyzed**" = true)
    (hnsr : isStepResult content = false) :
    (handleMessage captured ci now (.ai_response content ts intent conf agent) s).messages =
      s.messages ++
        [ { id := ts.getD now, type := .execution_plan, content := content, timestamp := ts
            intent := intent, confidence := conf, agent := agent
            executionPlan := some
              { id := "deployment-plan-" ++ now
                objective := "Deploy application with full infrastructure setup"
                steps := deploymentStepsTemplate
                status := .awaiting_approval
                totalEstimatedTime := some "7-10 minutes" } } ] ∧
    deploymentStepsTemplate.map (fun st => (st.service, st.action, st.status)) =
      [ ("mercury", "analyze_repository", .pending)
      , ("atlas", "provision_infrastructure", .pending)
      , ("neptune", "create_dns_record", .pending)
      , ("hermes", "generate_ssh_key", .pending)
      , ("phoenix", "deploy_application", .pending) ] := by
  constructor
  · have hfind : (captured.find? fun msg => msg.type = .execution_plan) = none :=
      List.find?_eq_none.mpr fun m hm => by simp [hcap m hm]
    have hplan : isExecutionPlan content = true := by
      simp [isExecutionPlan, hmark]
    simp [handleMessage, hnsr, hfind, hplan]
  · rfl

theorem deployment_analyzed_creates_plan_witness :
    (handleMessage initialMessages none "500"
        (.ai_response "🤖 **Deployment Request Analyzed**" (some "t5") none none none)
        initialChatState).messages =
      initialChatState.messages ++
        [ { id := (some "t5").getD "500", type := .execution_plan
            content := "🤖 **Deployment Request Analyzed**", timestamp := some "t5"
            intent := none, confidence := none, agent := none
            executionPlan := some
              { id := "deployment-plan-" ++ "500"
                objective := "Deploy application with full infrastructure setup"
                steps := deploymentStepsTemplate
                status := .awaiting_approval
                totalEstimatedTime := some "7-10 minutes" } } ] ∧
    deploymentStepsTemplate.map (fun st => (st.service, st.action, st.status)) =
      [ ("mercury", "analyze_repository", .pending)
      , ("atlas", "provision_infrastructure", .pending)
      , ("neptune", "create_dns_record", .pending)
      , ("hermes", "generate_ssh_key", .pending)
      , ("phoenix", "deploy_application", .pending) ] :=
  deployment_analyzed_creates_plan initialMessages none "500"
    "🤖 **Deployment Request Analyzed**" (some "t5") none none none initialChatState
    (by decide) (by decide) (by decide)

lemma thinking_agrees (key agent : Option String) :
    getContextAwareThinkingMessages key agent = specThinkingMessages key agent := by
  unfold getContextAwareThinkingMessages specThinkingMessages
  cases key with
  | none =>
    cases agent with
    | none => simp
    | some a => cases h : agentMessages.lookup a <;> simp [h]
  | some i =>
    cases h1 : operationMessages.lookup i with
    | some ops =>
      cases agent with
      | none => simp [h1]
      | some a => cases h2 : agentMessages.lookup a <;> simp [h1, h2, List.append_assoc]
    | none =>
      cases h2 : intentMessages.lookup i with
      | some ints =>
        cases agent with
        | none => simp [h1, h2]
        | some a => cases h3 : agentMessages.lookup a <;> simp [h1, h2, h3, List.append_assoc]
      | none =>
        cases agent with
        | none => simp [h1, h2]
        | some a => cases h3 : agentMessages.lookup a <;> simp [h1, h2, h3, List.append_assoc]

/-- C9: the thinking-message selector is the pure lookup the spec describes —
operation table first, else intent table, agent table appended, generic filler
appended exactly when the combined list has at most 3 entries — and the
`typing_indicator` dispatch that consumes it touches no business state
(messages, toasts, conversation id). -/
theorem thinking_selector_spec (key agent : Option String) :
    getContextAwareThinkingMessages key agent = specThinkingMessages key agent ∧
    (∀ (captured : List Message) (ci : Option String) (now : String) (t : Bool)
        (ag op it : Option String) (s : ChatState),
      (handleMessage captured ci now (.typing_indicator t ag op it) s).messages =
          s.messages ∧
      (handleMessage captured ci now (.typing_indicator t ag op it) s).toasts = s.toasts ∧
      (handleMessage captured ci now (.typing_indicator t ag op it) s).conversationId =
          s.conversationId) := by
  refine ⟨thinking_agrees key agent, ?_⟩
  intro captured ci now t ag op it s
  cases t <;> exact ⟨rfl, rfl, rfl⟩

lemma thinking_len_ge (key agent : Option String) :
    3 ≤ (getContextAwareThinkingMessages key agent).length := by
  unfold getContextAwareThinkingMessages
  cases key with
  | none =>
    cases agent with
    | none => simp [baseMessages, genericFillerMessages]
    | some a =>
      cases h : agentMessages.lookup a with
      | none => simp [h, baseMessages, genericFillerMessages]
      | some ags => simp [h, baseMessages]; split <;> simp
  | some i =>
    cases h1 : operationMessages.lookup i with
    | some ops =>
      cases agent with
      | none => simp [h1, baseMessages]; split <;> simp
      | some a =>
        cases h2 : agentMessages.lookup a with
        | none => simp [h1, h2, baseMessages]; split <;> simp
        | some ags => simp [h1, h2, baseMessages]; split <;> simp
    | none =>
      cases h2 : intentMessages.lookup i with
      | some ints =>
        cases agent with
        | none => simp [h1, h2, baseMessages]; split <;> simp
        | some a =>
          cases h3 : agentMessages.lookup a with
          | none => simp [h1, h2, h3, baseMessages]; split <;> simp
          | some ags => simp [h1, h2, h3, baseMessages]; split <;> simp
      | none =>
        cases agent with
        | none => simp [h1, h2, baseMessages, genericFillerMessages]
        | some a =>
          cases h3 : agentMessages.lookup a with
          | none => simp [h1, h2, h3, baseMessages, genericFillerMessages]
          | some ags =>
            simp [h1, h2, h3, baseMessages]; split <;> simp

/-- C10: the selector always returns at least the 3 base messages, so the
rotation tick `(prev + 1) % thinkingMessages.length` never divides by zero and
always lands on a valid index. -/
theorem thinking_rotation_safe (key agent : Option String) :
    3 ≤ (getContextAwareThinkingMessages key agent).length ∧
    ∀ s : ChatState, s.thinkingMessages = getContextAwareThinkingMessages key agent →
      (rotateThinkingMessage s).currentThinkingMessage < s.thinkingMessages.length := by
  refine ⟨thinking_len_ge key agent, ?_⟩
  intro s hs
  have hpos : 0 < s.thinkingMessages.length := by
    rw [hs]
    have := thinking_len_ge key agent
    omega
  simpa [rotateThinkingMessage] using Nat.mod_lt _ hpos

theorem thinking_rotation_safe_witness :
    3 ≤ (getContextAwareThinkingMessages none none).length ∧
    (rotateThinkingMessage rotationWitnessState).currentThinkingMessage <
      rotationWitnessState.thinkingMessages.length :=
  ⟨(thinking_rotation_safe none none).1,
   (thinking_rotation_safe none none).2 rotationWitnessState rfl⟩

end CV
